import Mathlib

/-!
Shallow embedding of `src/wifi_connection.c` (badgeteam/esp32-component-mch2022-bsp).

The connection manager keeps its shared state in a set of event-group bits
(`WIFI_CONNECTED_BIT`, `WIFI_FAIL_BIT`, `WIFI_STARTED_BIT`), a retry counter
`retryCount`, a retry limit `maxRetries` (both `uint8_t`), a scanning flag
`isScanning` and an IP snapshot `ip_info`.  The hardware delivers four
lifecycle events (`WIFI_EVENT_STA_START`, `WIFI_EVENT_STA_STOP`,
`WIFI_EVENT_STA_DISCONNECTED`, `IP_EVENT_STA_GOT_IP`) to `event_handler`,
which is the only writer of that state.  We model the handler as a pure step
function on a state record, returning the new state together with a flag
recording whether the step issued an `esp_wifi_connect()` call to the
hardware.  Traces of hardware events are lists folded through the handler.

`wifi_scan` talks to the hardware through fallible calls; we model the
hardware's responses (error codes, AP count, allocation success) as an
environment record and the function as a pure map from the environment and
the prior station-running state to its return value and final flag state.

Machine integers: `retryCount` is a `uint8_t` incremented with wrap-around,
modelled as `Nat` with an explicit `% 256`; error codes and RSSI values are
modelled as `Nat`/`Int` (only compared, never overflowed).
-/

namespace WifiConn

/-- IPv4 snapshot `esp_netif_ip_info_t`: address, netmask, gateway. -/
structure IpInfo where
  ip : Nat
  netmask : Nat
  gw : Nat
deriving DecidableEq, Repr

/-- Modelled from the spec: `WIFI_INFINITE_RETRIES` is defined in
`wifi_connection.h`, which is not among the given sources.  The spec says
`retryLimit` "accepts a sentinel meaning retry forever"; the limit is a
`uint8_t`, and the sentinel is its all-ones value 255, so the finite limits
are 0..254. -/
def WIFI_INFINITE_RETRIES : Nat := 255

/-- The four hardware lifecycle events `event_handler` reacts to. -/
inductive WifiEvent where
  | staStart
  | staStop
  | staDisconnected
  | gotIp (info : IpInfo)
deriving DecidableEq, Repr

/-- The connection manager's mutable state: the three event-group bits,
the retry counter and limit (`uint8_t`), the scanning flag and the IP
snapshot. -/
structure HState where
  startedBit : Bool
  connectedBit : Bool
  failBit : Bool
  retryCount : Nat
  maxRetries : Nat
  isScanning : Bool
  ipInfo : IpInfo
deriving DecidableEq, Repr

/-- `event_handler` (wifi_connection.c lines 30-59).  Returns the updated
state and whether the step called `esp_wifi_connect()`.
* STA_START: set the started bit; connect only if not scanning.
* STA_STOP: clear the started bit.
* STA_DISCONNECTED: if `maxRetries == WIFI_INFINITE_RETRIES` or
  `retryCount < maxRetries`, reconnect and increment the counter
  (`uint8_t` wrap-around); otherwise set the fail bit.
* GOT_IP: snapshot the address, reset the counter, set the connected bit. -/
def event_handler (s : HState) (e : WifiEvent) : HState × Bool :=
  match e with
  | .staStart => ({ s with startedBit := true }, !s.isScanning)
  | .staStop => ({ s with startedBit := false }, false)
  | .staDisconnected =>
      if s.maxRetries = WIFI_INFINITE_RETRIES ∨ s.retryCount < s.maxRetries then
        ({ s with retryCount := (s.retryCount + 1) % 256 }, true)
      else
        ({ s with failBit := true }, false)
  | .gotIp info =>
      ({ s with ipInfo := info, retryCount := 0, connectedBit := true }, false)

/-- Fold a trace of hardware events through `event_handler`. -/
def runEvents (s : HState) (tr : List WifiEvent) : HState :=
  tr.foldl (fun s e => (event_handler s e).1) s

/-- `wifi_is_connected` (lines 216-221): non-blocking read of the
connected bit. -/
def wifi_is_connected (s : HState) : Bool :=
  s.connectedBit

/-- `wifi_disconnect` (lines 186-189): force the retry limit to 0 and stop
the hardware (the hardware stop is not part of the manager state record). -/
def wifi_disconnect (s : HState) : HState :=
  { s with maxRetries := 0 }

/-- `strnlen(s, n)` on a byte sequence: the number of bytes before the
first NUL, capped at `n`. -/
def strnlen : List Nat → Nat → Nat
  | _, 0 => 0
  | [], _ + 1 => 0
  | b :: bs, n + 1 => if b = 0 then 0 else strnlen bs n + 1

/-- `strlen` on a byte sequence: bytes before the first NUL (the whole
sequence if none). -/
def cstrlen (l : List Nat) : Nat :=
  (l.takeWhile (fun b => b ≠ 0)).length

/-- The station configuration built by `wifi_connect_async`
(lines 129-132): fixed-capacity SSID (32 bytes) and password (64 bytes)
buffers plus the auth-mode threshold. -/
structure StaConfig where
  ssid : List Nat
  password : List Nat
  authmode : Nat
deriving DecidableEq, Repr

/-- Lines 129-132 of `wifi_connect_async`: zero the config, then
`memcpy(cfg.sta.ssid, aSsid, strnlen(aSsid, 32))` and
`memcpy(cfg.sta.password, aPassword, strnlen(aPassword, 64))`. -/
def mkStaConfig (ssid password : List Nat) (authmode : Nat) : StaConfig :=
  { ssid := ssid.take (strnlen ssid 32)
    password := password.take (strnlen password 64)
    authmode := authmode }

/-- `wifi_connect_async` (lines 118-146): reset `retryCount` to 0, set
`maxRetries`, clear all event bits, build the config and hand it to the
hardware.  Returns the manager state after the call and the configuration
passed to `esp_wifi_set_config`. -/
def wifi_connect_async (ssid password : List Nat) (authmode retryMax : Nat)
    (s : HState) : HState × StaConfig :=
  ({ s with retryCount := 0, maxRetries := retryMax,
            startedBit := false, connectedBit := false, failBit := false },
   mkStaConfig ssid password authmode)

/-- `wifi_await` (lines 192-213) at the moment it wakes with the event
bits of state `s`: if the connected bit is set, return true without
touching the hardware; otherwise (fail bit or unexpected wake) stop the
hardware and return false.  The second component is the station-running
flag after the call. -/
def wifi_await_wake (s : HState) (running : Bool) : Bool × Bool :=
  if s.connectedBit then (true, running) else (false, false)

/-- `wifi_connect` (lines 101-104): `wifi_connect_async` followed by
`wifi_await(0)`.  `tr` is the trace of hardware events delivered between
the connect request and the wake-up of the waiter. -/
def wifi_connect (ssid password : List Nat) (authmode retryMax : Nat)
    (s : HState) (tr : List WifiEvent) (running : Bool) : Bool :=
  (wifi_await_wake
    (runEvents (wifi_connect_async ssid password authmode retryMax s).1 tr)
    running).1

/-- Written from the spec's words, for comparison: "`connect(credentials,
retryLimit)` is equivalent to `connectAsync` followed by `await(0)`". -/
def connect_spec (ssid password : List Nat) (authmode retryMax : Nat)
    (s : HState) (tr : List WifiEvent) (running : Bool) : Bool :=
  let afterAsync := (wifi_connect_async ssid password authmode retryMax s).1
  (wifi_await_wake (runEvents afterAsync tr) running).1

/-- Is this event an address-acquisition event? -/
def isGotIp : WifiEvent → Bool
  | .gotIp _ => true
  | _ => false

/-- Written from the spec's words, for comparison with
`wifi_is_connected`: the most recent relevant event, `some true` when it
was an address-acquisition, `some false` when it was a disassociation,
`none` when neither has occurred. -/
def lastRelevant (tr : List WifiEvent) : Option Bool :=
  tr.foldl
    (fun acc e =>
      match e with
      | .gotIp _ => some true
      | .staDisconnected => some false
      | _ => acc)
    none

/-- Written from the spec's words: `isConnected()` should be true iff the
most recent relevant event was an address-acquisition and no disassociation
has occurred since. -/
def spec_isConnected (tr : List WifiEvent) : Bool :=
  lastRelevant tr == some true

/-- `ESP_ERR_WIFI_NOT_STARTED` (0x3002): the error code
`esp_wifi_scan_start` returns when the station has not been started.  Only
its identity (and being nonzero) matters to `wifi_scan`. -/
def ESP_ERR_WIFI_NOT_STARTED : Nat := 12290

/-- The hardware's responses to the calls `wifi_scan` makes, in program
order: the first `esp_wifi_scan_start`, `esp_wifi_set_mode`,
`esp_wifi_start`, the second `esp_wifi_scan_start`,
`esp_wifi_scan_get_ap_num` (error code and reported count), `malloc`
success, and `esp_wifi_scan_get_ap_records`.  Error code 0 is success. -/
structure ScanEnv where
  scanStartRes1 : Nat
  setModeRes : Nat
  startRes : Nat
  scanStartRes2 : Nat
  apNumRes : Nat
  numAp : Nat
  mallocOk : Bool
  getRecordsRes : Nat
deriving DecidableEq, Repr

/-- What `wifi_scan` leaves behind: its return value (the AP count), the
`isScanning` flag, and whether the station hardware is running. -/
structure ScanOutcome where
  ret : Nat
  isScanning : Bool
  staRunning : Bool
deriving DecidableEq, Repr

/-- Lines 303-337 of `wifi_scan`, after a successful scan: get the AP
count (a `WIFI_SORT_ERRCHECK` failure jumps to `error:` and returns 0
without clearing `isScanning` or stopping the station), allocate the
record array (on failure return 0 directly, again without clearing the
flag or stopping the station), fetch the records (failure jumps to
`error:`), and on success stop the station iff `stopWhenDone` and clear
the flag. -/
def wifi_scan_collect (env : ScanEnv) (stopWhenDone running : Bool) :
    ScanOutcome :=
  if env.apNumRes ≠ 0 then
    ⟨0, true, running⟩
  else if !env.mallocOk then
    ⟨0, true, running⟩
  else if env.getRecordsRes ≠ 0 then
    ⟨0, true, running⟩
  else
    ⟨env.numAp, false, if stopWhenDone then false else running⟩

/-- `wifi_scan` (lines 260-338).  Sets `isScanning`, starts the scan; if
the hardware answers `ESP_ERR_WIFI_NOT_STARTED`, switches to station
mode, starts the station (setting `stopWhenDone`), waits for the started
bit and retries the scan.  A nonzero result at the `if (res)` check takes
the `ohno` path: clear `isScanning` and return 0, leaving the station as
it is at that point.  Otherwise proceed to collect the results. -/
def wifi_scan (running : Bool) (env : ScanEnv) : ScanOutcome :=
  if env.scanStartRes1 = ESP_ERR_WIFI_NOT_STARTED then
    if env.setModeRes ≠ 0 then ⟨0, false, running⟩
    else if env.startRes ≠ 0 then ⟨0, false, running⟩
    else if env.scanStartRes2 ≠ 0 then ⟨0, false, true⟩
    else wifi_scan_collect env true true
  else if env.scanStartRes1 ≠ 0 then ⟨0, false, running⟩
  else wifi_scan_collect env false running

/-- The four signal-strength buckets `wifi_strength_t`. -/
inductive WifiStrength where
  | veryGood
  | good
  | bad
  | veryBad
deriving DecidableEq, Repr

/-- `wifi_rssi_to_strength` (lines 341-346).  The three thresholds
`WIFI_THRESH_VERY_GOOD`, `WIFI_THRESH_GOOD`, `WIFI_THRESH_BAD` are macros
from `wifi_connection.h`, which is not among the given sources; modelled
from the spec as parameters `t1 > t2 > t3` ("three fixed descending
thresholds").  The comparisons are strict, exactly as in the source. -/
def wifi_rssi_to_strength (t1 t2 t3 rssi : Int) : WifiStrength :=
  if rssi > t1 then .veryGood
  else if rssi > t2 then .good
  else if rssi > t3 then .bad
  else .veryBad

/-! ### Concrete states and environments for concrete checks -/

/-- A concrete idle manager state (limit 3, counter 0, all bits clear). -/
def hs0 : HState := ⟨false, false, false, 0, 3, false, ⟨0, 0, 0⟩⟩

/-- A concrete manager state with the infinite-retry sentinel installed. -/
def hsInf : HState :=
  ⟨false, false, false, 0, WIFI_INFINITE_RETRIES, false, ⟨0, 0, 0⟩⟩

/-- A concrete manager state with both the connected and fail bits set. -/
def hsBoth : HState := ⟨true, true, true, 0, 3, false, ⟨9, 9, 9⟩⟩

/-- A hardware environment in which the scan itself succeeds, the AP
count is reported, and the allocation of the record array fails. -/
def envAllocFail : ScanEnv :=
  { scanStartRes1 := 0, setModeRes := 0, startRes := 0, scanStartRes2 := 0,
    apNumRes := 0, numAp := 5, mallocOk := false, getRecordsRes := 0 }

/-- A hardware environment for a stopped station: the first scan start
reports `ESP_ERR_WIFI_NOT_STARTED`, the station starts fine, but the
retried scan start fails. -/
def envScanFail2 : ScanEnv :=
  { scanStartRes1 := ESP_ERR_WIFI_NOT_STARTED, setModeRes := 0,
    startRes := 0, scanStartRes2 := 1, apNumRes := 0, numAp := 0,
    mallocOk := true, getRecordsRes := 0 }

/-- A fully successful hardware environment for a stopped station. -/
def envScanOkStopped : ScanEnv :=
  { scanStartRes1 := ESP_ERR_WIFI_NOT_STARTED, setModeRes := 0,
    startRes := 0, scanStartRes2 := 0, apNumRes := 0, numAp := 2,
    mallocOk := true, getRecordsRes := 0 }

/-- A fully successful hardware environment for a running station. -/
def envScanOkRunning : ScanEnv :=
  { scanStartRes1 := 0, setModeRes := 0, startRes := 0, scanStartRes2 := 0,
    apNumRes := 0, numAp := 2, mallocOk := true, getRecordsRes := 0 }

/-! ### Helper lemmas about event traces -/

theorem runEvents_nil (s : HState) : runEvents s [] = s := rfl

theorem runEvents_cons (s : HState) (e : WifiEvent) (tr : List WifiEvent) :
    runEvents s (e :: tr) = runEvents (event_handler s e).1 tr := rfl

theorem runEvents_append (s : HState) (tr₁ tr₂ : List WifiEvent) :
    runEvents s (tr₁ ++ tr₂) = runEvents (runEvents s tr₁) tr₂ :=
  List.foldl_append ..

/-- No event changes the retry limit. -/
theorem maxRetries_event_handler (s : HState) (e : WifiEvent) :
    (event_handler s e).1.maxRetries = s.maxRetries := by
  cases e with
  | staStart => rfl
  | staStop => rfl
  | staDisconnected => simp only [event_handler]; split <;> rfl
  | gotIp info => rfl

/-- The retry limit is invariant along any trace. -/
theorem maxRetries_runEvents (s : HState) (tr : List WifiEvent) :
    (runEvents s tr).maxRetries = s.maxRetries := by
  induction tr generalizing s with
  | nil => rfl
  | cons e tr ih =>
      rw [runEvents_cons, ih, maxRetries_event_handler]

/-- A single event sets the connected bit iff it is an address
acquisition; no event clears it. -/
theorem connectedBit_event_handler (s : HState) (e : WifiEvent) :
    (event_handler s e).1.connectedBit = (s.connectedBit || isGotIp e) := by
  cases e with
  | staStart => simp [event_handler, isGotIp]
  | staStop => simp [event_handler, isGotIp]
  | staDisconnected =>
      simp only [event_handler, isGotIp, Bool.or_false]
      split <;> rfl
  | gotIp info => simp [event_handler, isGotIp]

/-- The connected bit after a trace: set initially, or set by some
address-acquisition event in the trace. -/
theorem connectedBit_runEvents (s : HState) (tr : List WifiEvent) :
    (runEvents s tr).connectedBit = (s.connectedBit || tr.any isGotIp) := by
  induction tr generalizing s with
  | nil => simp [runEvents_nil]
  | cons e tr ih =>
      rw [runEvents_cons, ih, connectedBit_event_handler, List.any_cons,
        Bool.or_assoc]

/-- With the infinite-retry sentinel, no event can set the fail bit. -/
theorem failBit_runEvents_infinite (s : HState) (tr : List WifiEvent)
    (hinf : s.maxRetries = WIFI_INFINITE_RETRIES)
    (hfail : s.failBit = false) :
    (runEvents s tr).failBit = false := by
  induction tr generalizing s with
  | nil => exact hfail
  | cons e tr ih =>
      rw [runEvents_cons]
      refine ih _ (by rw [maxRetries_event_handler]; exact hinf) ?_
      cases e <;> simp only [event_handler]
      · exact hfail
      · exact hfail
      · rw [if_pos (Or.inl hinf)]; exact hfail
      · exact hfail

/-- Running `k` consecutive disassociation events while the retry budget
is not exhausted only advances the retry counter (no wrap-around happens
below the `uint8_t` limit, and the fail bit stays clear). -/
theorem runEvents_replicate_disconnected (k : Nat) (s : HState)
    (hmax : s.maxRetries < 255)
    (hk : s.retryCount + k ≤ s.maxRetries) :
    runEvents s (List.replicate k .staDisconnected) =
      { s with retryCount := s.retryCount + k } := by
  induction k generalizing s with
  | zero => rfl
  | succ k ih =>
      rw [List.replicate_succ, runEvents_cons]
      have hlt : s.retryCount < s.maxRetries := by omega
      have hstep : (event_handler s .staDisconnected).1 =
          { s with retryCount := s.retryCount + 1 } := by
        simp only [event_handler]
        rw [if_pos (Or.inr hlt)]
        have : (s.retryCount + 1) % 256 = s.retryCount + 1 :=
          Nat.mod_eq_of_lt (by omega)
        rw [this]
      have h2 : ({ s with retryCount := s.retryCount + 1 } : HState).retryCount
          + k ≤ ({ s with retryCount := s.retryCount + 1 } : HState).maxRetries := by
        show s.retryCount + 1 + k ≤ s.maxRetries
        omega
      have h3 : ({ s with retryCount := s.retryCount + 1 } : HState).maxRetries
          < 255 := hmax
      rw [hstep, ih { s with retryCount := s.retryCount + 1 } h3 h2]
      show ({ s with retryCount := s.retryCount + 1 + k } : HState) = _
      simp only [HState.mk.injEq, and_true, true_and]
      omega

/-- `strnlen` is the C-string length capped at the bound. -/
theorem strnlen_eq_min (l : List Nat) (n : Nat) :
    strnlen l n = min (cstrlen l) n := by
  induction l generalizing n with
  | nil => cases n <;> simp [strnlen, cstrlen]
  | cons b bs ih =>
      cases n with
      | zero => simp [strnlen]
      | succ n =>
          by_cases hb : b = 0
          · simp [strnlen, cstrlen, hb]
          · have hc : cstrlen (b :: bs) = cstrlen bs + 1 := by
              simp [cstrlen, List.takeWhile_cons, hb]
            simp only [strnlen, if_neg hb]
            rw [ih, hc]
            omega

/-! ### Claims -/

/-- C1, counterexample: with retry limit 3, after exactly 3 consecutive
disassociation events from a fresh connect request the fail bit is still
clear (each of the three events takes the retry branch), so the claim
"after exactly N consecutive disassociation events the manager sets the
Failed flag and await returns false" is false at `N = 3`. -/
theorem retry_limit_exact_n_counterexample :
    ¬ ((runEvents (wifi_connect_async [] [] 0 3 hs0).1
          (List.replicate 3 .staDisconnected)).failBit = true ∧
       (wifi_await_wake
          (runEvents (wifi_connect_async [] [] 0 3 hs0).1
            (List.replicate 3 .staDisconnected)) true).1 = false) := by
  decide

/-- C1 (amended): for every finite retry limit `N` (a `uint8_t` value,
hence `N < 255` since 255 is the infinite sentinel), starting from a
fresh connect request, the first `N` consecutive disassociation events
with no intervening address acquisition leave the fail bit clear, the
`(N+1)`-th disassociation event sets it, and `await` then returns
false. -/
theorem retry_limit_exhaustion (ssid password : List Nat)
    (authmode N : Nat) (s : HState) (running : Bool) (hN : N < 255) :
    (runEvents (wifi_connect_async ssid password authmode N s).1
        (List.replicate N .staDisconnected)).failBit = false ∧
    (runEvents (wifi_connect_async ssid password authmode N s).1
        (List.replicate (N + 1) .staDisconnected)).failBit = true ∧
    (wifi_await_wake
        (runEvents (wifi_connect_async ssid password authmode N s).1
          (List.replicate (N + 1) .staDisconnected)) running).1 = false := by
  have hrun : runEvents (wifi_connect_async ssid password authmode N s).1
      (List.replicate N .staDisconnected) =
      { (wifi_connect_async ssid password authmode N s).1 with
          retryCount := 0 + N } :=
    runEvents_replicate_disconnected N _ hN (by show 0 + N ≤ N; omega)
  have hstep : runEvents (wifi_connect_async ssid password authmode N s).1
      (List.replicate (N + 1) .staDisconnected) =
      { (wifi_connect_async ssid password authmode N s).1 with
          retryCount := 0 + N, failBit := true } := by
    rw [List.replicate_succ', runEvents_append, hrun]
    show (event_handler _ .staDisconnected).1 = _
    simp only [event_handler]
    rw [if_neg]
    · exact fun h => by
        rcases h with h | h
        · exact absurd h (by show ¬N = 255; omega)
        · exact absurd h (by show ¬0 + N < N; omega)
  refine ⟨?_, ?_, ?_⟩
  · rw [hrun]; rfl
  · rw [hstep]
  · rw [hstep]
    rfl

/-- Witness for C1 (amended) at limit 2: two disassociations leave the
fail bit clear, the third sets it, and await then returns false. -/
theorem retry_limit_exhaustion_witness :
    (runEvents (wifi_connect_async [] [] 0 2 hs0).1
        (List.replicate 2 .staDisconnected)).failBit = false ∧
    (runEvents (wifi_connect_async [] [] 0 2 hs0).1
        (List.replicate (2 + 1) .staDisconnected)).failBit = true ∧
    (wifi_await_wake
        (runEvents (wifi_connect_async [] [] 0 2 hs0).1
          (List.replicate (2 + 1) .staDisconnected)) true).1 = false :=
  retry_limit_exhaustion [] [] 0 2 hs0 true (by decide)

/-- C2, counterexample: from a fresh connect request, deliver an
address-acquisition event and then a disassociation event.  The most
recent relevant event is a disassociation, so the spec-side predicate is
false, but `wifi_is_connected` still returns true: the retry branch of
the event handler never clears the connected bit.  The claimed
equivalence is false at this input. -/
theorem is_connected_spec_counterexample :
    ¬ (wifi_is_connected
         (runEvents (wifi_connect_async [] [] 0 3 hs0).1
           [.gotIp ⟨1, 2, 3⟩, .staDisconnected]) =
       spec_isConnected [.gotIp ⟨1, 2, 3⟩, .staDisconnected]) := by
  decide

/-- C2 (amended): `isConnected()` returns true iff an address-acquisition
event has occurred since the Signal flags were last cleared (by a connect
request); subsequent disassociation events do not clear the connected
bit. -/
theorem is_connected_iff_got_ip_since_clear (s : HState)
    (tr : List WifiEvent) (h : s.connectedBit = false) :
    wifi_is_connected (runEvents s tr) = true ↔
      ∃ info, WifiEvent.gotIp info ∈ tr := by
  unfold wifi_is_connected
  rw [connectedBit_runEvents, h, Bool.false_or, List.any_eq_true]
  constructor
  · rintro ⟨e, he, hgot⟩
    cases e
    case gotIp info => exact ⟨info, he⟩
    all_goals exact absurd hgot (by simp [isGotIp])
  · rintro ⟨info, hmem⟩
    exact ⟨.gotIp info, hmem, rfl⟩

/-- Witness for C2 (amended) at a concrete state and trace. -/
theorem is_connected_iff_got_ip_since_clear_witness :
    wifi_is_connected (runEvents hs0 [.gotIp ⟨1, 2, 3⟩]) = true :=
  (is_connected_iff_got_ip_since_clear hs0 [.gotIp ⟨1, 2, 3⟩] rfl).mpr
    ⟨⟨1, 2, 3⟩, List.mem_singleton.mpr rfl⟩

/-- C5: after `wifi_disconnect` forces the retry limit to 0, a
disassociation event arriving after any further trace of hardware events
never issues a connect request: the retry condition
`maxRetries == WIFI_INFINITE_RETRIES || retryCount < maxRetries` is false
when `maxRetries = 0`. -/
theorem disconnect_suppresses_reconnect (s : HState)
    (tr : List WifiEvent) :
    (event_handler (runEvents (wifi_disconnect s) tr) .staDisconnected).2
      = false := by
  have hmax : (runEvents (wifi_disconnect s) tr).maxRetries = 0 := by
    rw [maxRetries_runEvents]; rfl
  simp only [event_handler]
  rw [if_neg]
  rw [hmax]
  simp [WIFI_INFINITE_RETRIES]

/-- C6: while the retry limit is the INFINITE sentinel, no trace of
events ever sets the fail bit, and the retry counter is never consulted:
a disassociation event issues a connect request and leaves the fail bit
unchanged whatever the counter's value `r`. -/
theorem infinite_retries_never_fail (s : HState) (tr : List WifiEvent)
    (r : Nat) (hinf : s.maxRetries = WIFI_INFINITE_RETRIES)
    (hfail : s.failBit = false) :
    (runEvents s tr).failBit = false ∧
    (event_handler { s with retryCount := r } .staDisconnected).2 = true ∧
    (event_handler { s with retryCount := r } .staDisconnected).1.failBit
      = s.failBit := by
  refine ⟨failBit_runEvents_infinite s tr hinf hfail, ?_, ?_⟩
  · simp only [event_handler]
    rw [if_pos (Or.inl hinf)]
  · simp only [event_handler]
    rw [if_pos (Or.inl hinf)]

/-- Witness for C6 at a concrete state, trace and counter value. -/
theorem infinite_retries_never_fail_witness :
    (runEvents hsInf [.staDisconnected, .staDisconnected]).failBit = false ∧
    (event_handler { hsInf with retryCount := 7 } .staDisconnected).2
      = true ∧
    (event_handler { hsInf with retryCount := 7 } .staDisconnected).1.failBit
      = hsInf.failBit :=
  infinite_retries_never_fail hsInf [.staDisconnected, .staDisconnected] 7
    rfl rfl

/-- C3: evaluation of `wifi_scan` at the failing input.  When the scan
succeeds but the allocation of the AP record array fails, the function
returns 0 (graceful degradation) but leaves the scanning flag set: the
early `return 0` at the allocation-failure path never clears
`isScanning`, contradicting the claim that the flag is false on every
exit path. -/
theorem scan_alloc_failure_keeps_scanning_flag :
    (wifi_scan true envAllocFail).ret = 0 ∧
    (wifi_scan true envAllocFail).isScanning = true := by
  decide

/-- C4, counterexample: the station is stopped at the call, `wifi_scan`
starts it for the scan, and the retried scan start fails; the `ohno`
path returns without stopping the station, which is left running.  The
claim that the station is stopped again on every return path is false at
this input. -/
theorem scan_station_restore_counterexample :
    ¬ ((wifi_scan false envScanFail2).staRunning = false) := by
  decide

/-- C4 (amended): if the station was stopped when `wifi_scan` was called
(the first scan start reports `ESP_ERR_WIFI_NOT_STARTED`) and every
subsequent hardware step succeeds, the station is stopped again on
return; if the station was already running, it is left running on every
return path.  (On error paths reached after the station was started for
the scan, the station is left running.) -/
theorem scan_station_restore (env : ScanEnv) :
    (env.scanStartRes1 = ESP_ERR_WIFI_NOT_STARTED →
      env.setModeRes = 0 → env.startRes = 0 → env.scanStartRes2 = 0 →
      env.apNumRes = 0 → env.mallocOk = true → env.getRecordsRes = 0 →
      (wifi_scan false env).staRunning = false) ∧
    (env.scanStartRes1 ≠ ESP_ERR_WIFI_NOT_STARTED →
      (wifi_scan true env).staRunning = true) := by
  constructor
  · intro h1 h2 h3 h4 h5 h6 h7
    simp [wifi_scan, wifi_scan_collect, h1, h2, h3, h4, h5, h6, h7]
  · intro h1
    unfold wifi_scan wifi_scan_collect
    rw [if_neg h1]
    split_ifs <;> first | rfl | contradiction

/-- Witness for C4 (amended): both halves at concrete environments. -/
theorem scan_station_restore_witness :
    (wifi_scan false envScanOkStopped).staRunning = false ∧
    (wifi_scan true envScanOkRunning).staRunning = true :=
  ⟨(scan_station_restore envScanOkStopped).1 rfl rfl rfl rfl rfl rfl rfl,
   (scan_station_restore envScanOkRunning).2 (by decide)⟩

/-- C7: `wifi_connect` is exactly `wifi_connect_async` followed by
`wifi_await(0)` on the state the waiter wakes to, and it returns true
only if an address-acquisition event occurred in the trace delivered
between the connect request and the wake-up. -/
theorem connect_refines_async_await (ssid password : List Nat)
    (authmode retryMax : Nat) (s : HState) (tr : List WifiEvent)
    (running : Bool) :
    wifi_connect ssid password authmode retryMax s tr running =
      connect_spec ssid password authmode retryMax s tr running ∧
    (wifi_connect ssid password authmode retryMax s tr running = true →
      ∃ info, WifiEvent.gotIp info ∈ tr) := by
  constructor
  · rfl
  · intro h
    have hcb : (runEvents
        (wifi_connect_async ssid password authmode retryMax s).1
        tr).connectedBit = true := by
      by_contra hcb
      unfold wifi_connect wifi_await_wake at h
      rw [if_neg hcb] at h
      exact absurd h (by simp)
    rw [connectedBit_runEvents] at hcb
    have h0 : (wifi_connect_async ssid password authmode
        retryMax s).1.connectedBit = false := rfl
    rw [h0, Bool.false_or, List.any_eq_true] at hcb
    obtain ⟨e, he, hgot⟩ := hcb
    cases e
    case gotIp info => exact ⟨info, he⟩
    all_goals exact absurd hgot (by simp [isGotIp])

/-- Witness for C7 at concrete inputs: one address-acquisition event
arrives, `wifi_connect` returns true, and the event is in the trace. -/
theorem connect_refines_async_await_witness :
    wifi_connect [] [] 0 3 hs0 [.gotIp ⟨1, 2, 3⟩] true =
      connect_spec [] [] 0 3 hs0 [.gotIp ⟨1, 2, 3⟩] true ∧
    ∃ info, WifiEvent.gotIp info ∈ [WifiEvent.gotIp ⟨1, 2, 3⟩] :=
  ⟨(connect_refines_async_await [] [] 0 3 hs0 [.gotIp ⟨1, 2, 3⟩] true).1,
   (connect_refines_async_await [] [] 0 3 hs0 [.gotIp ⟨1, 2, 3⟩] true).2
     (by decide)⟩

/-- C8: the configuration `wifi_connect_async` hands to the hardware
contains exactly the first `min(length, 32)` bytes of the SSID and the
first `min(length, 64)` bytes of the passphrase, where the length of a
value is its byte count before the first NUL (the whole value when
unterminated); longer values are silently truncated and the config is
always produced (no error path exists in its construction). -/
theorem config_truncates_ssid_password (ssid password : List Nat)
    (authmode retryMax : Nat) (s : HState) :
    (wifi_connect_async ssid password authmode retryMax s).2.ssid =
      ssid.take (min (cstrlen ssid) 32) ∧
    (wifi_connect_async ssid password authmode retryMax s).2.password =
      password.take (min (cstrlen password) 64) := by
  constructor
  · show ssid.take (strnlen ssid 32) = _
    rw [strnlen_eq_min]
  · show password.take (strnlen password 64) = _
    rw [strnlen_eq_min]

/-- C9: for descending thresholds `t1 > t2 > t3`,
`wifi_rssi_to_strength` returns VeryGood iff `rssi > t1`, Good iff
`t1 ≥ rssi > t2`, Bad iff `t2 ≥ rssi > t3`, and VeryBad iff
`rssi ≤ t3`; a value exactly equal to a threshold falls into the lower
bucket (strict greater-than comparisons). -/
theorem rssi_classification (t1 t2 t3 rssi : Int)
    (h12 : t2 < t1) (h23 : t3 < t2) :
    (wifi_rssi_to_strength t1 t2 t3 rssi = .veryGood ↔ t1 < rssi) ∧
    (wifi_rssi_to_strength t1 t2 t3 rssi = .good ↔
      t2 < rssi ∧ rssi ≤ t1) ∧
    (wifi_rssi_to_strength t1 t2 t3 rssi = .bad ↔
      t3 < rssi ∧ rssi ≤ t2) ∧
    (wifi_rssi_to_strength t1 t2 t3 rssi = .veryBad ↔ rssi ≤ t3) := by
  unfold wifi_rssi_to_strength
  split_ifs with h1 h2 h3 <;> refine ⟨?_, ?_, ?_, ?_⟩ <;>
    simp_all <;> omega

/-- Witness for C9 at concrete thresholds (-55, -70, -85) and a concrete
RSSI of -60, which classifies as Good. -/
theorem rssi_classification_witness :
    (wifi_rssi_to_strength (-55) (-70) (-85) (-60) = .veryGood ↔
      (-55 : Int) < -60) ∧
    (wifi_rssi_to_strength (-55) (-70) (-85) (-60) = .good ↔
      (-70 : Int) < -60 ∧ (-60 : Int) ≤ -55) ∧
    (wifi_rssi_to_strength (-55) (-70) (-85) (-60) = .bad ↔
      (-85 : Int) < -60 ∧ (-60 : Int) ≤ -70) ∧
    (wifi_rssi_to_strength (-55) (-70) (-85) (-60) = .veryBad ↔
      (-60 : Int) ≤ -85) :=
  rssi_classification (-55) (-70) (-85) (-60) (by decide) (by decide)

/-- C10: if both the connected and the fail bit are set when
`wifi_await` wakes, it returns true and leaves the hardware running: the
connected bit is checked before the fail bit. -/
theorem await_connected_wins_over_fail (s : HState) (running : Bool)
    (hc : s.connectedBit = true) (_hf : s.failBit = true) :
    wifi_await_wake s running = (true, running) := by
  unfold wifi_await_wake
  rw [if_pos hc]

/-- Witness for C10 at a concrete state with both bits set. -/
theorem await_connected_wins_over_fail_witness :
    wifi_await_wake hsBoth true = (true, true) :=
  await_connected_wins_over_fail hsBoth true rfl rfl

end WifiConn
